import Mathlib

/-!
Shallow embedding of the tracing demo script (src/app.py).

The script is modelled by the sequence of observable events it emits during
one run: log lines, tracer/provider configuration steps, span starts and
ends, span attribute writes, span status writes, the outbound HTTP GET and
the artificial delay, and the provider shutdown.  Pure control flow of the
Python source is translated function by function; the outcome of the one
fallible operation (the HTTP fetch inside call_demo_endpoint) is a parameter
of type FetchResult, and the interleaving that asyncio.gather chooses
between the two concurrent coroutines is a parameter of type List Bool.
-/

/-- Value of a span attribute: a string, a machine integer, or Python None
(what dict.get returns for a missing key). -/
inductive AttrValue where
  | str (s : String)
  | nat (n : Nat)
  | missing
deriving DecidableEq

/-- One observable event of a run of app.py. -/
inductive Event where
  | loggingSetup                                   -- logging.basicConfig, line 16
  | getTracer                                      -- trace.get_tracer, line 51
  | createResource                                 -- Resource.create, line 25
  | createProvider                                 -- TracerProvider(resource=...), line 33
  | createExporter                                 -- CloudTraceSpanExporter(), line 37
  | addProcessor                                   -- add_span_processor, lines 38-39
  | setTracerProvider                              -- trace.set_tracer_provider, line 42
  | instrumentHttpx                                -- HTTPXClientInstrumentor().instrument, line 46
  | logInfo (msg : String)
  | logDebug (msg : String)
  | logError (msg : String)
  | logCritical (msg : String)
  | spanStart (name : String)
  | spanEnd (name : String)
  | setAttr (span attr : String) (v : AttrValue)
  | setStatusError (span desc : String)            -- set_status(Status(StatusCode.ERROR, desc))
  | httpGet (u : String)                           -- client.get(url), line 79
  | sleep (ms : Nat)                               -- asyncio.sleep, line 62 (in milliseconds)
  | shutdown                                       -- provider shutdown, line 131
deriving DecidableEq

/-- The JSON body of a fetched post, as far as the script reads it:
post_data.get of the keys id and title (either may be absent). -/
structure Post where
  id : Option Nat
  title : Option String

/-- Result of parsing the response body: the parsed post, or the message of a
json.JSONDecodeError. -/
inductive JsonOutcome where
  | ok (p : Post)
  | decodeError (msg : String)

/-- An HTTP response as the script consumes it: status code, body text (used
in the error log), and what response.json would yield. -/
structure Response where
  statusCode : Nat
  text : String
  jsonOutcome : JsonOutcome

/-- Outcome of the fetch attempted inside the try block of
call_demo_endpoint: a response was obtained, the request failed with an
httpx.RequestError, or some other exception arose during the fetch. -/
inductive FetchResult where
  | response (r : Response)
  | netError (msg : String)      -- httpx.RequestError raised by client.get
  | unexpected (msg : String)    -- any other exception raised during the fetch

/-- A Python exception as the except clauses of call_demo_endpoint
distinguish them (lines 90-108). -/
inductive Exn where
  | httpStatusError (code : Nat) (text : String)   -- httpx.HTTPStatusError
  | requestError (msg : String)                    -- httpx.RequestError
  | jsonDecodeError (msg : String)                 -- json.JSONDecodeError
  | other (msg : String)                           -- any other Exception

/-- url = "https://jsonplaceholder.typicode.com/posts/1" (line 71). -/
def demoUrl : String := "https://jsonplaceholder.typicode.com/posts/1"

/-- Name of the span the decorator on call_demo_endpoint opens (line 65). -/
def fetchSpan : String := "fetch_jsonplaceholder_post"

/-- Name of the span the decorator on wait_half_second opens (line 53). -/
def waitSpan : String := "simulate_half_second_wait"

/-- Name of the root span opened in main (line 117). -/
def mainSpan : String := "main_application_run"

/-- asyncio.sleep(0.5) at line 62: the delay, expressed in milliseconds
(0.5 seconds = 500 ms, exactly). -/
def sleepMillis : Nat := 500

/-- attrOfOptNat models set_attribute applied to dict.get of a numeric key. -/
def attrOfOptNat : Option Nat → AttrValue
  | some n => AttrValue.nat n
  | none => AttrValue.missing

/-- attrOfOptStr models set_attribute applied to dict.get of a string key. -/
def attrOfOptStr : Option String → AttrValue
  | some s => AttrValue.str s
  | none => AttrValue.missing

/-- The try block of call_demo_endpoint (lines 77-88): the events it emits
and, when it raises, the exception.  client.get either raises a RequestError
or yields the response; raise_for_status raises HTTPStatusError when the
status code is in the error range (400 and above); response.json either
parses or raises JSONDecodeError; on success the three result attributes are
set.  An unexpected exception during the fetch is the remaining case. -/
def tryBody : FetchResult → List Event × Option Exn
  | FetchResult.netError msg =>
      ([Event.httpGet demoUrl], some (Exn.requestError msg))
  | FetchResult.unexpected msg =>
      ([Event.httpGet demoUrl], some (Exn.other msg))
  | FetchResult.response r =>
      if 400 ≤ r.statusCode then
        ([Event.httpGet demoUrl], some (Exn.httpStatusError r.statusCode r.text))
      else
        match r.jsonOutcome with
        | JsonOutcome.decodeError msg =>
            ([Event.httpGet demoUrl], some (Exn.jsonDecodeError msg))
        | JsonOutcome.ok post =>
            ([Event.httpGet demoUrl,
              Event.logInfo "Successfully fetched data from demo endpoint.",
              Event.logDebug "Fetched data",
              Event.setAttr fetchSpan "http.status_code" (AttrValue.nat r.statusCode),
              Event.setAttr fetchSpan "post.id" (attrOfOptNat post.id),
              Event.setAttr fetchSpan "post.title" (attrOfOptStr post.title)],
             none)

/-- The except clauses of call_demo_endpoint (lines 90-108): each logs the
error and sets the span status to ERROR with the corresponding message; none
of them re-raises. -/
def handleException : Exn → List Event
  | Exn.httpStatusError code text =>
      [Event.logError ("HTTP error occurred: " ++ toString code ++ " - " ++ text),
       Event.setStatusError fetchSpan ("HTTP Error: " ++ toString code)]
  | Exn.requestError msg =>
      [Event.logError ("Network error occurred: " ++ msg),
       Event.setStatusError fetchSpan ("Network Error: " ++ msg)]
  | Exn.jsonDecodeError msg =>
      [Event.logError ("JSON decoding error: " ++ msg),
       Event.setStatusError fetchSpan ("JSON Decode Error: " ++ msg)]
  | Exn.other msg =>
      [Event.logCritical ("An unexpected error occurred: " ++ msg),
       Event.setStatusError fetchSpan ("Unexpected Error: " ++ msg)]

/-- call_demo_endpoint (lines 65-108): the decorator opens the span, the
function logs, sets http.target.url, runs the try block, and the matching
except clause absorbs any raised exception; the pair's second component is
the exception the call propagates to its caller. -/
def call_demo_endpoint_run (w : FetchResult) : List Event × Option Exn :=
  let body := tryBody w
  let handled :=
    match body.2 with
    | none => body.1
    | some e => body.1 ++ handleException e
  ([Event.spanStart fetchSpan,
    Event.logInfo ("Starting call_demo_endpoint function. Fetching from: " ++ demoUrl),
    Event.setAttr fetchSpan "http.target.url" (AttrValue.str demoUrl)]
   ++ handled ++ [Event.spanEnd fetchSpan], none)

/-- The events one invocation of call_demo_endpoint emits. -/
def call_demo_endpoint (w : FetchResult) : List Event :=
  (call_demo_endpoint_run w).1

/-- wait_half_second (lines 53-63): the decorator opens the span, the
function logs, sets wait.duration.ms to the literal 500, sleeps half a
second, and logs again. -/
def wait_half_second : List Event :=
  [Event.spanStart waitSpan,
   Event.logInfo "Starting wait_half_second function...",
   Event.setAttr waitSpan "wait.duration.ms" (AttrValue.nat 500),
   Event.sleep sleepMillis,
   Event.logInfo "Finished wait_half_second function.",
   Event.spanEnd waitSpan]

/-- asyncio.gather of two coroutines (lines 120-123): the run interleaves
the two event sequences; the schedule picks, step by step, which coroutine
advances (true the first, false the second); once one is exhausted, or the
schedule runs out, the rest follows in order.  Both coroutines complete
before gather returns. -/
def gatherEvents {α : Type} : List Bool → List α → List α → List α
  | [], xs, ys => xs ++ ys
  | true :: s, [], ys => gatherEvents s [] ys
  | true :: s, x :: xs, ys => x :: gatherEvents s xs ys
  | false :: s, xs, [] => gatherEvents s xs []
  | false :: s, xs, y :: ys => y :: gatherEvents s xs ys

/-- main (lines 110-125): log, open the root span, log, gather the two
coroutines, set app.status on the root span, close it, log. -/
def main_events (sched : List Bool) (w : FetchResult) : List Event :=
  [Event.logInfo "Application starting...",
   Event.spanStart mainSpan,
   Event.logInfo "Running wait_half_second and call_demo_endpoint in parallel..."]
  ++ gatherEvents sched wait_half_second (call_demo_endpoint w)
  ++ [Event.setAttr mainSpan "app.status" (AttrValue.str "completed_parallel_tasks"),
      Event.spanEnd mainSpan,
      Event.logInfo "Application finished."]

/-- configure_opentelemetry (lines 20-48): resource, provider, exporter,
processor, set the global tracer provider, instrument httpx, log. -/
def configure_opentelemetry : List Event :=
  [Event.createResource, Event.createProvider, Event.createExporter,
   Event.addProcessor, Event.setTracerProvider, Event.instrumentHttpx,
   Event.logInfo "OpenTelemetry configured successfully for Google Cloud Trace."]

/-- Module-level statements run at import time before the main guard:
logging.basicConfig (line 16) and trace.get_tracer (line 51). -/
def startupEvents : List Event :=
  [Event.loggingSetup, Event.getTracer]

/-- One whole run of the script (the main guard, lines 127-132): import-time
statements, configure_opentelemetry, asyncio.run(main()), provider shutdown,
final log line. -/
def runEvents (sched : List Bool) (w : FetchResult) : List Event :=
  startupEvents ++ configure_opentelemetry ++ main_events sched w
  ++ [Event.shutdown, Event.logInfo "OpenTelemetry provider shut down."]

/-- Whether the fetch reaches the success path of the try block: a response
arrived, raise_for_status did not raise, and the body parsed. -/
def fetchSuccess : FetchResult → Bool
  | FetchResult.response r =>
      if 400 ≤ r.statusCode then false
      else
        match r.jsonOutcome with
        | JsonOutcome.ok _ => true
        | JsonOutcome.decodeError _ => false
  | FetchResult.netError _ => false
  | FetchResult.unexpected _ => false

/-- Recognizes the outbound HTTP GET events of a run. -/
def isHttpGet : Event → Bool
  | Event.httpGet _ => true
  | _ => false

/-- Recognizes the artificial-delay events of a run. -/
def isSleep : Event → Bool
  | Event.sleep _ => true
  | _ => false

/-- The events of a run that precede the completion of configuration
(everything strictly before trace.set_tracer_provider). -/
def beforeConfig (l : List Event) : List Event :=
  l.takeWhile (fun e => !(e == Event.setTracerProvider))

/-- The configure-before-use discipline as the spec states it for tracers:
no tracer is obtained before configuration completes. -/
def noTracerBeforeConfig (l : List Event) : Prop :=
  Event.getTracer ∉ beforeConfig l

/-- The four coarse phases the spec ascribes to each script. -/
inductive Phase where
  | logging
  | config
  | workload
  | teardown
deriving DecidableEq

/-- Phase abstraction of an event: logging setup, completion of provider
configuration, span-wrapped I/O work (the delay and the GET), and provider
shutdown; all other events belong to no phase. -/
def phaseOf : Event → Option Phase
  | Event.loggingSetup => some Phase.logging
  | Event.setTracerProvider => some Phase.config
  | Event.sleep _ => some Phase.workload
  | Event.httpGet _ => some Phase.workload
  | Event.shutdown => some Phase.teardown
  | _ => none

/-- Modelled from the spec: the repository's second near-duplicate script is
not under src/.  Per the spec, each of the two scripts performs (a) logging
setup, (b) tracing-provider configuration pointing at a cloud exporter,
(c) the trivial workload of an artificial delay plus one outbound HTTP GET
to a public test API, wrapped in trace spans, and (d) provider shutdown to
flush buffered spans. -/
def script2Events : List Event :=
  [Event.loggingSetup,
   Event.createResource, Event.createProvider, Event.createExporter,
   Event.addProcessor, Event.setTracerProvider, Event.instrumentHttpx,
   Event.spanStart mainSpan,
   Event.sleep sleepMillis,
   Event.httpGet demoUrl,
   Event.spanEnd mainSpan,
   Event.shutdown]

/-- gatherEvents is a merge: it emits exactly the events of the two
coroutines, whatever the schedule. -/
theorem gatherEvents_perm {α : Type} (s : List Bool) (xs ys : List α) :
    (gatherEvents s xs ys).Perm (xs ++ ys) := by
  induction s generalizing xs ys with
  | nil => simp [gatherEvents]
  | cons b s ih =>
    cases b with
    | true =>
      cases xs with
      | nil =>
        simpa only [gatherEvents, List.nil_append] using ih [] ys
      | cons x xs =>
        simpa only [gatherEvents, List.cons_append] using (ih xs ys).cons x
    | false =>
      cases ys with
      | nil =>
        simpa only [gatherEvents, List.append_nil] using ih xs []
      | cons y ys =>
        simp only [gatherEvents]
        exact ((ih xs ys).cons y).trans List.perm_middle.symm

/-- Filtering a merge whose first component contributes nothing yields the
filtered second component, in order. -/
theorem filter_gatherEvents {α : Type} (p : α → Bool) (s : List Bool) (xs ys : List α)
    (hx : xs.filter p = []) :
    (gatherEvents s xs ys).filter p = ys.filter p := by
  induction s generalizing xs ys with
  | nil => simp [gatherEvents, List.filter_append, hx]
  | cons b s ih =>
    cases b with
    | true =>
      cases xs with
      | nil =>
        simpa only [gatherEvents] using ih [] ys rfl
      | cons x xs =>
        by_cases hpx : p x = true
        · simp [List.filter_cons, hpx] at hx
        · rw [List.filter_cons, if_neg hpx] at hx
          simp only [gatherEvents, List.filter_cons, if_neg hpx]
          exact ih xs ys hx
    | false =>
      cases ys with
      | nil =>
        simpa only [gatherEvents] using ih xs [] hx
      | cons y ys =>
        by_cases hpy : p y = true
        · simp only [gatherEvents, List.filter_cons, if_pos hpy]
          rw [ih xs ys hx]
        · simp only [gatherEvents, List.filter_cons, if_neg hpy]
          exact ih xs ys hx

/-- Among the events of one invocation of call_demo_endpoint there is exactly
one HTTP GET, and it goes to the fixed demo URL. -/
theorem call_demo_endpoint_filter_httpGet (w : FetchResult) :
    (call_demo_endpoint w).filter isHttpGet = [Event.httpGet demoUrl] := by
  cases w with
  | netError msg =>
      simp [call_demo_endpoint, call_demo_endpoint_run, tryBody, handleException, isHttpGet]
  | unexpected msg =>
      simp [call_demo_endpoint, call_demo_endpoint_run, tryBody, handleException, isHttpGet]
  | response r =>
      rcases r with ⟨code, text, jo⟩
      by_cases hc : 400 ≤ code
      · simp [call_demo_endpoint, call_demo_endpoint_run, tryBody, handleException, isHttpGet, hc]
      · cases jo with
        | ok post =>
            simp [call_demo_endpoint, call_demo_endpoint_run, tryBody, isHttpGet, hc]
        | decodeError msg =>
            simp [call_demo_endpoint, call_demo_endpoint_run, tryBody, handleException, isHttpGet, hc]

/-- The phase trace of one invocation of call_demo_endpoint is a single unit
of workload (its one HTTP GET), whatever the fetch outcome. -/
theorem call_demo_endpoint_phases (w : FetchResult) :
    (call_demo_endpoint w).filterMap phaseOf = [Phase.workload] := by
  cases w with
  | netError msg =>
      simp [call_demo_endpoint, call_demo_endpoint_run, tryBody, handleException, phaseOf]
  | unexpected msg =>
      simp [call_demo_endpoint, call_demo_endpoint_run, tryBody, handleException, phaseOf]
  | response r =>
      rcases r with ⟨code, text, jo⟩
      by_cases hc : 400 ≤ code
      · simp [call_demo_endpoint, call_demo_endpoint_run, tryBody, handleException, phaseOf, hc]
      · cases jo with
        | ok post =>
            simp [call_demo_endpoint, call_demo_endpoint_run, tryBody, phaseOf, hc]
        | decodeError msg =>
            simp [call_demo_endpoint, call_demo_endpoint_run, tryBody, handleException, phaseOf, hc]

/-- call_demo_endpoint emits no shutdown event. -/
theorem shutdown_not_mem_call_demo_endpoint (w : FetchResult) :
    Event.shutdown ∉ call_demo_endpoint w := by
  cases w with
  | netError msg =>
      simp [call_demo_endpoint, call_demo_endpoint_run, tryBody, handleException]
  | unexpected msg =>
      simp [call_demo_endpoint, call_demo_endpoint_run, tryBody, handleException]
  | response r =>
      rcases r with ⟨code, text, jo⟩
      by_cases hc : 400 ≤ code
      · simp [call_demo_endpoint, call_demo_endpoint_run, tryBody, handleException, hc]
      · cases jo with
        | ok post =>
            simp [call_demo_endpoint, call_demo_endpoint_run, tryBody, hc]
        | decodeError msg =>
            simp [call_demo_endpoint, call_demo_endpoint_run, tryBody, handleException, hc]

/-- call_demo_endpoint never closes the root span: the only span it ends is
its own. -/
theorem spanEnd_main_not_mem_call_demo_endpoint (w : FetchResult) :
    Event.spanEnd mainSpan ∉ call_demo_endpoint w := by
  cases w with
  | netError msg =>
      simp [call_demo_endpoint, call_demo_endpoint_run, tryBody, handleException, mainSpan, fetchSpan]
  | unexpected msg =>
      simp [call_demo_endpoint, call_demo_endpoint_run, tryBody, handleException, mainSpan, fetchSpan]
  | response r =>
      rcases r with ⟨code, text, jo⟩
      by_cases hc : 400 ≤ code
      · simp [call_demo_endpoint, call_demo_endpoint_run, tryBody, handleException, mainSpan, fetchSpan, hc]
      · cases jo with
        | ok post =>
            simp [call_demo_endpoint, call_demo_endpoint_run, tryBody, mainSpan, fetchSpan, hc]
        | decodeError msg =>
            simp [call_demo_endpoint, call_demo_endpoint_run, tryBody, handleException, mainSpan, fetchSpan, hc]

/-- C1: every exception raised during the HTTP fetch in call_demo_endpoint
(HTTP status error, network error, JSON decode error, or any other
exception) is caught inside call_demo_endpoint, forwarded to a log line
(logger.error or logger.critical), and recorded by setting the current
span's status to ERROR; no caught exception is re-raised by a handler, so
the invocation propagates no exception. -/
theorem c1_exceptions_caught_logged_status_error (w : FetchResult) :
    (call_demo_endpoint_run w).2 = none ∧
    ∀ e, (tryBody w).2 = some e →
      ((∃ m, Event.logError m ∈ call_demo_endpoint w) ∨
        ∃ m, Event.logCritical m ∈ call_demo_endpoint w) ∧
      ∃ d, Event.setStatusError fetchSpan d ∈ call_demo_endpoint w := by
  refine ⟨rfl, ?_⟩
  intro e he
  cases w with
  | netError msg =>
      refine ⟨Or.inl ⟨"Network error occurred: " ++ msg, ?_⟩,
        ⟨"Network Error: " ++ msg, ?_⟩⟩ <;>
        simp [call_demo_endpoint, call_demo_endpoint_run, tryBody, handleException]
  | unexpected msg =>
      refine ⟨Or.inr ⟨"An unexpected error occurred: " ++ msg, ?_⟩,
        ⟨"Unexpected Error: " ++ msg, ?_⟩⟩ <;>
        simp [call_demo_endpoint, call_demo_endpoint_run, tryBody, handleException]
  | response r =>
      rcases r with ⟨code, text, jo⟩
      by_cases hc : 400 ≤ code
      · refine ⟨Or.inl ⟨"HTTP error occurred: " ++ toString code ++ " - " ++ text, ?_⟩,
          ⟨"HTTP Error: " ++ toString code, ?_⟩⟩ <;>
          simp [call_demo_endpoint, call_demo_endpoint_run, tryBody, handleException, hc]
      · cases jo with
        | ok post => simp [tryBody, hc] at he
        | decodeError msg =>
            refine ⟨Or.inl ⟨"JSON decoding error: " ++ msg, ?_⟩,
              ⟨"JSON Decode Error: " ++ msg, ?_⟩⟩ <;>
              simp [call_demo_endpoint, call_demo_endpoint_run, tryBody, handleException, hc]

/-- C2: each invocation of call_demo_endpoint issues exactly one outbound
HTTP GET, to the fixed demo URL, and a whole program run likewise performs
exactly that one GET: no retry ever adds a second request. -/
theorem c2_exactly_one_get_fixed_url (sched : List Bool) (w : FetchResult) :
    (call_demo_endpoint w).filter isHttpGet = [Event.httpGet demoUrl] ∧
    (runEvents sched w).filter isHttpGet = [Event.httpGet demoUrl] := by
  refine ⟨call_demo_endpoint_filter_httpGet w, ?_⟩
  have hg := filter_gatherEvents isHttpGet sched wait_half_second (call_demo_endpoint w) rfl
  simp [runEvents, main_events, startupEvents, configure_opentelemetry,
    List.filter_append, hg, call_demo_endpoint_filter_httpGet w, isHttpGet]

/-- C5: main runs exactly the two coroutines wait_half_second and
call_demo_endpoint concurrently inside the root span main_application_run:
the merged segment contains precisely the events of those two tasks, and the
root span's end lies strictly after that whole segment, for every schedule
the gather may take. -/
theorem c5_two_tasks_under_root_span (sched : List Bool) (w : FetchResult) :
    main_events sched w =
      [Event.logInfo "Application starting...",
       Event.spanStart mainSpan,
       Event.logInfo "Running wait_half_second and call_demo_endpoint in parallel..."]
      ++ gatherEvents sched wait_half_second (call_demo_endpoint w)
      ++ [Event.setAttr mainSpan "app.status" (AttrValue.str "completed_parallel_tasks"),
          Event.spanEnd mainSpan,
          Event.logInfo "Application finished."] ∧
    (gatherEvents sched wait_half_second (call_demo_endpoint w)).Perm
      (wait_half_second ++ call_demo_endpoint w) ∧
    Event.spanEnd mainSpan ∉ gatherEvents sched wait_half_second (call_demo_endpoint w) := by
  refine ⟨rfl, gatherEvents_perm sched wait_half_second (call_demo_endpoint w), ?_⟩
  intro hmem
  rw [(gatherEvents_perm sched wait_half_second (call_demo_endpoint w)).mem_iff] at hmem
  rcases List.mem_append.1 hmem with h | h
  · exact absurd h (by decide)
  · exact spanEnd_main_not_mem_call_demo_endpoint w h

/-- C6: wait_half_second delays for half a second (modelled as 500 ms,
exact) and sets the attribute wait.duration.ms on its span
simulate_half_second_wait to exactly the number of milliseconds slept; the
delay event it emits is unique. -/
theorem c6_wait_attr_equals_delay :
    Event.setAttr waitSpan "wait.duration.ms" (AttrValue.nat sleepMillis) ∈ wait_half_second ∧
    wait_half_second.filter isSleep = [Event.sleep sleepMillis] ∧
    sleepMillis = 500 := by decide

/-- C9: call_demo_endpoint never propagates an exception to its caller (the
final catch-all absorbs any Exception), so main's gather returns normally
and the attribute app.status = completed_parallel_tasks is set on the root
span in every run. -/
theorem c9_no_exception_escapes_app_status_set (sched : List Bool) (w : FetchResult) :
    (call_demo_endpoint_run w).2 = none ∧
    Event.setAttr mainSpan "app.status" (AttrValue.str "completed_parallel_tasks")
      ∈ main_events sched w :=
  ⟨rfl, by simp [main_events]⟩

/-- C3 (counterexample): the claim that no tracer is obtained before
configuration completes is false on the code as written: in the concrete run
with an empty schedule and a failing fetch, trace.get_tracer (module line
51) appears among the events preceding trace.set_tracer_provider (executed
from the main guard, line 128). -/
theorem c3_counterexample :
    ¬ noTracerBeforeConfig (runEvents [] (FetchResult.netError "boom")) := by
  unfold noTracerBeforeConfig
  decide

/-- C3 (amended): the provider and exporter are fully configured before any
span-creating operation runs: the events preceding the completion of
configuration are exactly the module-level statements and the earlier
configuration steps, and contain no span start; however, the module-level
tracer IS obtained (trace.get_tracer, line 51) before configuration
completes. -/
theorem c3_amended_spans_only_after_config (sched : List Bool) (w : FetchResult) :
    beforeConfig (runEvents sched w) =
      [Event.loggingSetup, Event.getTracer, Event.createResource,
       Event.createProvider, Event.createExporter, Event.addProcessor] ∧
    (∀ n, Event.spanStart n ∉ beforeConfig (runEvents sched w)) ∧
    Event.getTracer ∈ beforeConfig (runEvents sched w) := by
  have h : beforeConfig (runEvents sched w) =
      [Event.loggingSetup, Event.getTracer, Event.createResource,
       Event.createProvider, Event.createExporter, Event.addProcessor] := rfl
  refine ⟨h, ?_, ?_⟩
  · intro n
    rw [h]
    simp
  · rw [h]
    simp

/-- C4: a run performs, in order, (a) logging setup at import time, (b)
tracing-provider configuration, (c) the span-wrapped workload inside main,
and (d) provider shutdown; the shutdown event occurs nowhere in the earlier
phases and no span ends after it, so it comes after the whole workload has
completed. -/
theorem c4_phases_in_order_shutdown_last (sched : List Bool) (w : FetchResult) :
    runEvents sched w =
      startupEvents ++ configure_opentelemetry ++ main_events sched w
        ++ [Event.shutdown, Event.logInfo "OpenTelemetry provider shut down."] ∧
    Event.shutdown ∉ startupEvents ++ configure_opentelemetry ++ main_events sched w ∧
    ∀ n, Event.spanEnd n ∉
      [Event.shutdown, Event.logInfo "OpenTelemetry provider shut down."] := by
  refine ⟨rfl, ?_, by intro n; simp⟩
  intro hmem
  rcases List.mem_append.1 hmem with h | h
  · exact absurd h (by decide)
  · simp only [main_events] at h
    rcases List.mem_append.1 h with h | h
    · rcases List.mem_append.1 h with h | h
      · exact absurd h (by decide)
      · rw [(gatherEvents_perm sched wait_half_second (call_demo_endpoint w)).mem_iff] at h
        rcases List.mem_append.1 h with h | h
        · exact absurd h (by decide)
        · exact shutdown_not_mem_call_demo_endpoint w h
    · exact absurd h (by decide)

/-- C7: every I/O-bound operation executes inside an active span: the delay
event lies strictly inside the span simulate_half_second_wait of its
coroutine, the HTTP GET lies strictly inside the span
fetch_jsonplaceholder_post of its coroutine, and the whole merged segment of
the two coroutines lies strictly inside the root span main_application_run. -/
theorem c7_io_wrapped_in_spans (sched : List Bool) (w : FetchResult) :
    (∃ mid, wait_half_second = Event.spanStart waitSpan :: (mid ++ [Event.spanEnd waitSpan]) ∧
      Event.sleep sleepMillis ∈ mid) ∧
    (∃ mid, call_demo_endpoint w =
        Event.spanStart fetchSpan :: (mid ++ [Event.spanEnd fetchSpan]) ∧
      Event.httpGet demoUrl ∈ mid) ∧
    (∃ mid, main_events sched w =
        [Event.logInfo "Application starting...", Event.spanStart mainSpan]
          ++ (mid ++ [Event.spanEnd mainSpan, Event.logInfo "Application finished."]) ∧
      ∃ pre post,
        pre ++ gatherEvents sched wait_half_second (call_demo_endpoint w) ++ post = mid) := by
  refine ⟨⟨[Event.logInfo "Starting wait_half_second function...",
            Event.setAttr waitSpan "wait.duration.ms" (AttrValue.nat 500),
            Event.sleep sleepMillis,
            Event.logInfo "Finished wait_half_second function."], by decide, by decide⟩,
    ?_,
    ⟨Event.logInfo "Running wait_half_second and call_demo_endpoint in parallel..."
        :: (gatherEvents sched wait_half_second (call_demo_endpoint w)
          ++ [Event.setAttr mainSpan "app.status" (AttrValue.str "completed_parallel_tasks")]),
      by simp [main_events],
      ⟨[Event.logInfo "Running wait_half_second and call_demo_endpoint in parallel..."],
        [Event.setAttr mainSpan "app.status" (AttrValue.str "completed_parallel_tasks")],
        by simp⟩⟩⟩
  cases w with
  | netError msg =>
      exact ⟨[Event.logInfo ("Starting call_demo_endpoint function. Fetching from: " ++ demoUrl),
              Event.setAttr fetchSpan "http.target.url" (AttrValue.str demoUrl),
              Event.httpGet demoUrl,
              Event.logError ("Network error occurred: " ++ msg),
              Event.setStatusError fetchSpan ("Network Error: " ++ msg)], rfl, by simp⟩
  | unexpected msg =>
      exact ⟨[Event.logInfo ("Starting call_demo_endpoint function. Fetching from: " ++ demoUrl),
              Event.setAttr fetchSpan "http.target.url" (AttrValue.str demoUrl),
              Event.httpGet demoUrl,
              Event.logCritical ("An unexpected error occurred: " ++ msg),
              Event.setStatusError fetchSpan ("Unexpected Error: " ++ msg)], rfl, by simp⟩
  | response r =>
      rcases r with ⟨code, text, jo⟩
      by_cases hc : 400 ≤ code
      · refine ⟨[Event.logInfo ("Starting call_demo_endpoint function. Fetching from: " ++ demoUrl),
                 Event.setAttr fetchSpan "http.target.url" (AttrValue.str demoUrl),
                 Event.httpGet demoUrl,
                 Event.logError ("HTTP error occurred: " ++ toString code ++ " - " ++ text),
                 Event.setStatusError fetchSpan ("HTTP Error: " ++ toString code)], ?_, by simp⟩
        simp [call_demo_endpoint, call_demo_endpoint_run, tryBody, handleException, hc]
      · cases jo with
        | ok post =>
            refine ⟨[Event.logInfo ("Starting call_demo_endpoint function. Fetching from: " ++ demoUrl),
                     Event.setAttr fetchSpan "http.target.url" (AttrValue.str demoUrl),
                     Event.httpGet demoUrl,
                     Event.logInfo "Successfully fetched data from demo endpoint.",
                     Event.logDebug "Fetched data",
                     Event.setAttr fetchSpan "http.status_code" (AttrValue.nat code),
                     Event.setAttr fetchSpan "post.id" (attrOfOptNat post.id),
                     Event.setAttr fetchSpan "post.title" (attrOfOptStr post.title)], ?_, by simp⟩
            simp [call_demo_endpoint, call_demo_endpoint_run, tryBody, hc]
        | decodeError msg =>
            refine ⟨[Event.logInfo ("Starting call_demo_endpoint function. Fetching from: " ++ demoUrl),
                     Event.setAttr fetchSpan "http.target.url" (AttrValue.str demoUrl),
                     Event.httpGet demoUrl,
                     Event.logError ("JSON decoding error: " ++ msg),
                     Event.setStatusError fetchSpan ("JSON Decode Error: " ++ msg)], ?_, by simp⟩
            simp [call_demo_endpoint, call_demo_endpoint_run, tryBody, handleException, hc]

/-- C8: the script under src/ and the second near-duplicate script (modelled
from the spec) are behaviourally equivalent up to their minor differences:
abstracted to the spec's four phases, both perform one logging setup, one
provider configuration, a workload of exactly one artificial delay and one
outbound HTTP GET, and one provider shutdown. -/
theorem c8_scripts_phase_equivalent (sched : List Bool) (w : FetchResult) :
    ((runEvents sched w).filterMap phaseOf).Perm (script2Events.filterMap phaseOf) ∧
    script2Events.filterMap phaseOf =
      [Phase.logging, Phase.config, Phase.workload, Phase.workload, Phase.teardown] := by
  refine ⟨?_, rfl⟩
  have hG : ((gatherEvents sched wait_half_second (call_demo_endpoint w)).filterMap
      phaseOf).Perm [Phase.workload, Phase.workload] := by
    have hp := (gatherEvents_perm sched wait_half_second (call_demo_endpoint w)).filterMap phaseOf
    rw [List.filterMap_append, call_demo_endpoint_phases w] at hp
    simpa [wait_half_second, phaseOf] using hp
  have hrun : (runEvents sched w).filterMap phaseOf =
      Phase.logging :: Phase.config ::
        ((gatherEvents sched wait_half_second (call_demo_endpoint w)).filterMap phaseOf
          ++ [Phase.teardown]) := by
    simp [runEvents, startupEvents, configure_opentelemetry, main_events, phaseOf,
      List.filterMap_append]
  rw [hrun]
  exact ((hG.append_right [Phase.teardown]).cons Phase.config).cons Phase.logging

/-- C10: call_demo_endpoint sets http.target.url to the fixed URL on its
span before the network I/O is attempted (the GET event follows it
immediately in every outcome), while the attributes http.status_code,
post.id and post.title are set exactly on the success path of the fetch. -/
theorem c10_target_url_first_result_attrs_on_success (w : FetchResult) :
    (∃ rest, call_demo_endpoint w =
      [Event.spanStart fetchSpan,
       Event.logInfo ("Starting call_demo_endpoint function. Fetching from: " ++ demoUrl),
       Event.setAttr fetchSpan "http.target.url" (AttrValue.str demoUrl),
       Event.httpGet demoUrl] ++ rest) ∧
    ((∃ v, Event.setAttr fetchSpan "http.status_code" v ∈ call_demo_endpoint w) ↔
      fetchSuccess w = true) ∧
    ((∃ v, Event.setAttr fetchSpan "post.id" v ∈ call_demo_endpoint w) ↔
      fetchSuccess w = true) ∧
    ((∃ v, Event.setAttr fetchSpan "post.title" v ∈ call_demo_endpoint w) ↔
      fetchSuccess w = true) := by
  cases w with
  | netError msg =>
      refine ⟨⟨[Event.logError ("Network error occurred: " ++ msg),
                Event.setStatusError fetchSpan ("Network Error: " ++ msg),
                Event.spanEnd fetchSpan], rfl⟩, ?_, ?_, ?_⟩ <;>
        simp [call_demo_endpoint, call_demo_endpoint_run, tryBody, handleException,
          fetchSuccess, fetchSpan]
  | unexpected msg =>
      refine ⟨⟨[Event.logCritical ("An unexpected error occurred: " ++ msg),
                Event.setStatusError fetchSpan ("Unexpected Error: " ++ msg),
                Event.spanEnd fetchSpan], rfl⟩, ?_, ?_, ?_⟩ <;>
        simp [call_demo_endpoint, call_demo_endpoint_run, tryBody, handleException,
          fetchSuccess, fetchSpan]
  | response r =>
      rcases r with ⟨code, text, jo⟩
      by_cases hc : 400 ≤ code
      · refine ⟨⟨[Event.logError ("HTTP error occurred: " ++ toString code ++ " - " ++ text),
                  Event.setStatusError fetchSpan ("HTTP Error: " ++ toString code),
                  Event.spanEnd fetchSpan], ?_⟩, ?_, ?_, ?_⟩ <;>
          simp [call_demo_endpoint, call_demo_endpoint_run, tryBody, handleException,
            fetchSuccess, fetchSpan, hc]
      · cases jo with
        | ok post =>
            refine ⟨⟨[Event.logInfo "Successfully fetched data from demo endpoint.",
                      Event.logDebug "Fetched data",
                      Event.setAttr fetchSpan "http.status_code" (AttrValue.nat code),
                      Event.setAttr fetchSpan "post.id" (attrOfOptNat post.id),
                      Event.setAttr fetchSpan "post.title" (attrOfOptStr post.title),
                      Event.spanEnd fetchSpan], ?_⟩, ?_, ?_, ?_⟩ <;>
              simp [call_demo_endpoint, call_demo_endpoint_run, tryBody,
                fetchSuccess, fetchSpan, hc]
        | decodeError msg =>
            refine ⟨⟨[Event.logError ("JSON decoding error: " ++ msg),
                      Event.setStatusError fetchSpan ("JSON Decode Error: " ++ msg),
                      Event.spanEnd fetchSpan], ?_⟩, ?_, ?_, ?_⟩ <;>
              simp [call_demo_endpoint, call_demo_endpoint_run, tryBody, handleException,
                fetchSuccess, fetchSpan, hc]
